import Mathlib

/-!
Shallow embedding of the clincrush matching core:
`src/utils/matchingAlgorithm.ts` (allergy filter, match scorer, ranking
pipeline) and the trial-search orchestration of
`src/components/trial-matching/TrialMatching.tsx`.

JavaScript strings are modelled as Lean `String`; the numeric type
`number` is modelled as `ℚ` (ages and parsed integers as `ℤ`); optional
fields are `Option`; JavaScript truthiness of a string is the test
against `""`, of a number the test against `0`.
-/

/-- JavaScript `String.prototype.startsWith` on character lists. -/
def strStartsWith : List Char → List Char → Bool
  | _, [] => true
  | [], _ :: _ => false
  | c :: cs, d :: ds => c = d && strStartsWith cs ds

/-- JavaScript `String.prototype.includes` on character lists: the needle
occurs as a contiguous substring of the haystack. -/
def strContains : List Char → List Char → Bool
  | [], needle => strStartsWith [] needle
  | c :: cs, needle => strStartsWith (c :: cs) needle || strContains cs needle

/-- JavaScript `haystack.includes(needle)` on `String`. -/
def jsIncludes (haystack needle : String) : Bool :=
  strContains haystack.data needle.data

/-- JavaScript `s.toLowerCase()` (ASCII case folding). -/
def jsToLower (s : String) : String :=
  ⟨s.data.map Char.toLower⟩

/-- JavaScript `s.trim()`: strip leading and trailing whitespace. -/
def jsTrim (s : String) : String :=
  ⟨((s.data.dropWhile Char.isWhitespace).reverse.dropWhile Char.isWhitespace).reverse⟩

/-- Value of a leading run of decimal digits; `none` when there is no digit,
matching the NaN result of `parseInt`. -/
def parseDigits (cs : List Char) : Option ℤ :=
  let ds := cs.takeWhile Char.isDigit
  if ds.isEmpty then none
  else some (ds.foldl (fun acc c => acc * 10 + ((c.toNat : ℤ) - 48)) 0)

/-- JavaScript `parseInt(s)` in base 10: skip leading whitespace, optional
sign, then a maximal digit run; `none` models NaN. -/
def parseIntJS (s : String) : Option ℤ :=
  match s.data.dropWhile Char.isWhitespace with
  | '-' :: rest => (parseDigits rest).map (fun n => -n)
  | '+' :: rest => parseDigits rest
  | rest => parseDigits rest

/-- JavaScript `v || d` applied to a parsed integer: NaN (`none`) and `0`
are falsy and replaced by the default. -/
def jsOrInt (v : Option ℤ) (d : ℤ) : ℤ :=
  match v with
  | none => d
  | some n => if n = 0 then d else n

/-- Trial age range, free-form strings as in the `Trial` interface. -/
structure AgeRange where
  min : String
  max : String
deriving DecidableEq

/-- A trial site, from the `Trial.locations` field. -/
structure TrialLocation where
  city : String
  state : String
  country : String
  zip : String
  facility : String
  latitude : Option ℚ
  longitude : Option ℚ
  distance : Option ℚ
deriving DecidableEq

/-- Trial compensation record. -/
structure Compensation where
  has_compensation : Bool
  amount : Option ℚ
  currency : Option String
  details : Option String
deriving DecidableEq

/-- A substance used in a trial. -/
structure Substance where
  type : String
  name : String
deriving DecidableEq

/-- The `Trial` interface of `matchingAlgorithm.ts`. -/
structure Trial where
  id : String
  title : String
  conditions : List String
  gender : String
  age_range : AgeRange
  locations : List TrialLocation
  summary : String
  compensation : Option Compensation
  eligibilityCriteria : Option String
  substancesUsed : Option (List Substance)
  distance : Option ℚ
  matchScore : Option ℚ
deriving DecidableEq

/-- The user profile fields read by the matching core. -/
structure UserProfile where
  medicalConditions : List String
  gender : String
  age : ℤ
  location : String
  maxTravelDistance : ℚ
  allergies : List String
  preferredCompensation : Option ℚ
deriving DecidableEq

/-- Substance check of `filterTrialsByAllergies`: some declared substance
has a nonempty name whose lower-cased form contains a normalized allergen. -/
def substanceBlocked (normalizedAllergies : List String) (t : Trial) : Bool :=
  match t.substancesUsed with
  | none => false
  | some subs =>
    if subs.length > 0 then
      subs.any fun sub =>
        if sub.name = "" then false
        else normalizedAllergies.any fun allergy =>
          jsIncludes (jsToLower sub.name) allergy
    else false

/-- Eligibility-criteria check of `filterTrialsByAllergies`: the lower-cased
criteria text contains the phrase `allergy to` or `allergic to` followed by
a normalized allergen. -/
def criteriaBlocked (normalizedAllergies : List String) (t : Trial) : Bool :=
  match t.eligibilityCriteria with
  | none => false
  | some ec =>
    if ec = "" then false
    else normalizedAllergies.any fun allergy =>
      jsIncludes (jsToLower ec) ("allergy to " ++ allergy) ||
      jsIncludes (jsToLower ec) ("allergic to " ++ allergy)

/-- `filterTrialsByAllergies` of `matchingAlgorithm.ts`. -/
def filterTrialsByAllergies (trials : List Trial) (allergies : List String) : List Trial :=
  if allergies.isEmpty then trials
  else
    let normalizedAllergies := allergies.map fun a => jsTrim (jsToLower a)
    trials.filter fun t =>
      !substanceBlocked normalizedAllergies t && !criteriaBlocked normalizedAllergies t

/-- Condition-overlap test of `calculateMatchScore`: some trial condition and
some profile condition are mutually substring-containing, case-insensitively. -/
def conditionMatch (p : UserProfile) (t : Trial) : Bool :=
  t.conditions.any fun condition =>
    p.medicalConditions.any fun userCondition =>
      jsIncludes (jsToLower userCondition) (jsToLower condition) ||
      jsIncludes (jsToLower condition) (jsToLower userCondition)

/-- Gender-eligibility test of `calculateMatchScore`. -/
def genderMatch (p : UserProfile) (t : Trial) : Bool :=
  if t.gender = "" then false
  else
    let normalizedGender := jsToLower t.gender
    normalizedGender = "all" ||
    jsIncludes normalizedGender "both" ||
    jsIncludes normalizedGender (jsToLower p.gender)

/-- Effective minimum age: `parseInt(trial.age_range.min) || 0`. -/
def minAgeOf (t : Trial) : ℤ :=
  jsOrInt (parseIntJS t.age_range.min) 0

/-- Effective maximum age: `parseInt(trial.age_range.max) || 999`. -/
def maxAgeOf (t : Trial) : ℤ :=
  jsOrInt (parseIntJS t.age_range.max) 999

/-- Age-eligibility test of `calculateMatchScore`. -/
def ageMatch (p : UserProfile) (t : Trial) : Bool :=
  decide (minAgeOf t ≤ p.age) && decide (p.age ≤ maxAgeOf t)

/-- Condition component of the score (weight 50). -/
def conditionPoints (p : UserProfile) (t : Trial) : ℚ :=
  if conditionMatch p t then 50 else 0

/-- Gender component of the score (weight 15). -/
def genderPoints (p : UserProfile) (t : Trial) : ℚ :=
  if genderMatch p t then 15 else 0

/-- Age component of the score (weight 15). -/
def agePoints (p : UserProfile) (t : Trial) : ℚ :=
  if ageMatch p t then 15 else 0

/-- Location-proximity component of the score (weight 20): only earned when
the trial carries a distance within the travel range; floor of 5 points. -/
def locationPoints (p : UserProfile) (t : Trial) : ℚ :=
  match t.distance with
  | none => 0
  | some d =>
    if d ≤ p.maxTravelDistance then
      max 5 (20 * (1 - d / p.maxTravelDistance))
    else 0

/-- Compensation component for a given positive preferred minimum `pref`:
full 10 when the trial amount meets it, else `min 9 (10 * amount / pref)`;
a missing, disabled, or zero amount earns 0. -/
def compPoints (pref : ℚ) (t : Trial) : ℚ :=
  match t.compensation with
  | none => 0
  | some c =>
    if c.has_compensation then
      match c.amount with
      | none => 0
      | some amount =>
        if amount = 0 then 0
        else if pref ≤ amount then 10
        else min 9 (10 * (amount / pref))
    else 0

/-- JavaScript truthiness of `profile.preferredCompensation && ... > 0`. -/
def compApplicable (p : UserProfile) : Bool :=
  match p.preferredCompensation with
  | none => false
  | some pref => decide (0 < pref)

/-- Compensation component of the score as accumulated by
`calculateMatchScore` (0 when the profile has no positive preference). -/
def compensationPoints (p : UserProfile) (t : Trial) : ℚ :=
  match p.preferredCompensation with
  | none => 0
  | some pref => if 0 < pref then compPoints pref t else 0

/-- Accumulated `score` of `calculateMatchScore`. -/
def scoreNumerator (p : UserProfile) (t : Trial) : ℚ :=
  conditionPoints p t + genderPoints p t + agePoints p t +
    locationPoints p t + compensationPoints p t

/-- Accumulated `maxScore` of `calculateMatchScore`: 50 + 15 + 15 + 20,
plus 10 when the compensation weight applies. -/
def scoreDenominator (p : UserProfile) (t : Trial) : ℚ :=
  50 + 15 + 15 + 20 + (if compApplicable p then 10 else 0)

/-- `calculateMatchScore` of `matchingAlgorithm.ts`:
`maxScore > 0 ? score / maxScore : 0`. -/
def calculateMatchScore (p : UserProfile) (t : Trial) : ℚ :=
  if 0 < scoreDenominator p t then scoreNumerator p t / scoreDenominator p t
  else 0

/-- Shallow copy-with-update attaching the computed match score. -/
def withScore (p : UserProfile) (t : Trial) : Trial :=
  { t with matchScore := some (calculateMatchScore p t) }

/-- Sort key of the ranking comparator: `matchScore || 0`. -/
def keyOf (t : Trial) : ℚ :=
  t.matchScore.getD 0

/-- Stable insertion for the descending-by-score order: the new element is
placed before the first element whose key is not greater. -/
def insertByScore (x : Trial) : List Trial → List Trial
  | [] => [x]
  | y :: ys => if keyOf y ≤ keyOf x then x :: y :: ys else y :: insertByScore x ys

/-- Stable sort descending by `keyOf`, the behaviour ECMAScript guarantees
for `Array.prototype.sort` with the comparator `(b, a) => key b - key a`. -/
def sortByScoreDesc : List Trial → List Trial
  | [] => []
  | x :: xs => insertByScore x (sortByScoreDesc xs)

/-- The filtered, scored (not yet sorted) list built by
`rankTrialsByMatchScore`. -/
def scoredTrials (trials : List Trial) (p : UserProfile) : List Trial :=
  (filterTrialsByAllergies trials p.allergies).map (withScore p)

/-- `rankTrialsByMatchScore` of `matchingAlgorithm.ts`. -/
def rankTrialsByMatchScore (trials : List Trial) (p : UserProfile) : List Trial :=
  sortByScoreDesc (scoredTrials trials p)

/-- Compensation amount carried by a trial, 0 when absent; used to state
nonnegativity hypotheses about trial data. -/
def compAmount (t : Trial) : ℚ :=
  match t.compensation with
  | none => 0
  | some c => c.amount.getD 0

/-- The profile fingerprint computed by `loadTrials` in `TrialMatching.tsx`:
JSON of the search-relevant fields, modelled as the tuple of those fields
(equality of the JSON strings is equality of the tuples). -/
structure Fingerprint where
  conditions : List String
  location : String
  allergies : List String
  maxDistance : ℚ
deriving DecidableEq

/-- Fingerprint of a profile, as serialized by `loadTrials`. -/
def fingerprintOf (p : UserProfile) : Fingerprint :=
  { conditions := p.medicalConditions, location := p.location,
    allergies := p.allergies, maxDistance := p.maxTravelDistance }

/-- Component state of `TrialMatching`: React state hooks plus the three
refs (`isMountedRef`, `isFetchingRef`, `searchedProfileRef`). -/
structure OrchState where
  isMounted : Bool
  isFetching : Bool
  searchedProfile : Option Fingerprint
  trials : List Trial
  currentIndex : ℕ
  matchedTrials : List Trial
  rejectedTrials : List Trial
  loading : Bool
  error : Option String
deriving DecidableEq

/-- Outcome of the synchronous part of `loadTrials`, up to the `await`:
either the function returned early (skipped), or it issued exactly one
`searchTrials` network call with the given condition and city arguments. -/
inductive BeginResult where
  | skipped (st : OrchState)
  | request (st : OrchState) (condition : String) (city : String)
deriving DecidableEq

/-- City term for the search: `location.split(',')[0].trim()`. -/
def cityOf (location : String) : String :=
  jsTrim ⟨location.data.takeWhile (fun c => !(c = ','))⟩

/-- Synchronous part of `loadTrials`: the in-flight and mounted guards, the
fingerprint comparison, the precondition checks, then the state updates made
before the `searchTrials` call is awaited. -/
def loadTrialsBegin (st : OrchState) (p : UserProfile) : BeginResult :=
  if st.isFetching || !st.isMounted then .skipped st
  else if some (fingerprintOf p) = st.searchedProfile then .skipped st
  else if p.medicalConditions.isEmpty then
    .skipped { st with
      error := some "Your profile is missing medical conditions. Please update your profile.",
      loading := false }
  else if p.location = "" then
    .skipped { st with
      error := some "Your profile is missing location information. Please update your profile.",
      loading := false }
  else
    .request { st with isFetching := true, loading := true, error := none }
      (p.medicalConditions.headD "") (cityOf p.location)

/-- Whether the synchronous part issued a network call. -/
def issuesCall : BeginResult → Bool
  | .skipped _ => false
  | .request _ _ _ => true

/-- State after the synchronous part of `loadTrials`. -/
def stateAfter : BeginResult → OrchState
  | .skipped s => s
  | .request s _ _ => s

/-- Resumption of `loadTrials` when the awaited `searchTrials` call settles:
`Except.ok` is a parsed response array, `Except.error` a network or parse
failure; the final record update models the `finally` block. -/
def loadTrialsResolve (st : OrchState) (p : UserProfile)
    (response : Except Unit (List Trial)) : OrchState :=
  let body :=
    match response with
    | .ok trialsData =>
      if !st.isMounted then st
      else if !trialsData.isEmpty then
        { st with
          trials := rankTrialsByMatchScore trialsData p,
          currentIndex := 0, matchedTrials := [], rejectedTrials := [],
          searchedProfile := some (fingerprintOf p) }
      else
        { st with
          error := some "No clinical trials found matching your criteria.",
          trials := [] }
    | .error _ =>
      if st.isMounted then
        { st with
          error := some "Failed to load clinical trials. Please try again later.",
          trials := [] }
      else st
  { body with isFetching := false, loading := false }

/-- Concrete profile used to exercise the scorer: one condition, gender
female, age 30, a 50-mile travel range, no compensation preference. -/
def cp4 : UserProfile :=
  { medicalConditions := ["diabetes"], gender := "female", age := 30,
    location := "Berkeley, CA", maxTravelDistance := 50, allergies := [],
    preferredCompensation := none }

/-- Concrete trial matching `cp4` on condition, gender and age, with no
distance and no compensation information. -/
def ct4 : Trial :=
  { id := "nct1", title := "Trial", conditions := ["Diabetes"], gender := "All",
    age_range := { min := "18", max := "65" }, locations := [], summary := "",
    compensation := none, eligibilityCriteria := none, substancesUsed := none,
    distance := none, matchScore := none }

/-- Concrete trial whose only disclosed substance name is Peanut Extract. -/
def tPeanut : Trial :=
  { id := "t1", title := "T", conditions := [], gender := "",
    age_range := { min := "", max := "" }, locations := [], summary := "",
    compensation := none, eligibilityCriteria := none,
    substancesUsed := some [{ type := "drug", name := "Peanut Extract" }],
    distance := none, matchScore := none }

/-- Concrete state with a mounted component, no fetch in flight, no
previously searched fingerprint, and one held trial. -/
def stIdle : OrchState :=
  { isMounted := true, isFetching := false, searchedProfile := none,
    trials := [tPeanut], currentIndex := 0, matchedTrials := [],
    rejectedTrials := [], loading := false, error := none }

/-- Concrete state holding one ranked trial while a fetch is in flight. -/
def stInFlight : OrchState :=
  { stIdle with isFetching := true, loading := true }

/-- The matching trial `ct4` placed at a negative distance. -/
def ctNegDist : Trial :=
  { ct4 with distance := some (-50) }

/-- The matching trial `ct4` with unparsable age-range strings. -/
def ctBadAge : Trial :=
  { ct4 with age_range := { min := "abc", max := "" } }

/-- C6: filtering any trial list against the empty allergy list returns the
list unchanged. -/
theorem filterTrialsByAllergies_nil_allergies (trials : List Trial) :
    filterTrialsByAllergies trials [] = trials := rfl

/-- C7: a trial whose only disclosed substance name is Peanut Extract is
excluded when the allergy list contains peanut, and kept when it contains
only the plural peanuts (substring containment, not token matching). -/
theorem filterTrialsByAllergies_peanut_substring :
    filterTrialsByAllergies [tPeanut] ["peanut"] = [] ∧
    filterTrialsByAllergies [tPeanut] ["peanuts"] = [tPeanut] := by
  constructor <;> decide

/-- C10: gender points are earned whenever the lower-cased profile gender is
a substring of the nonempty lower-cased trial gender field; in particular a
profile gender male inside a trial gender Female earns the full 15 points. -/
theorem genderPoints_of_substring (p : UserProfile) (t : Trial)
    (hne : t.gender ≠ "")
    (hsub : jsIncludes (jsToLower t.gender) (jsToLower p.gender) = true) :
    genderPoints p t = 15 := by
  have hmatch : genderMatch p t = true := by
    unfold genderMatch
    rw [if_neg hne]
    simp [hsub]
  simp [genderPoints, hmatch]

/-- Witness for C10: a trial whose gender field is Female against a profile
with gender male earns the 15 gender points. -/
theorem genderPoints_of_substring_witness :
    genderPoints { cp4 with gender := "male" } { ct4 with gender := "Female" } = 15 :=
  genderPoints_of_substring { cp4 with gender := "male" } { ct4 with gender := "Female" }
    (by decide) (by decide)

/-- C5: with a 50-mile travel range, distance 0 earns the full 20 proximity
points, distance 50 earns exactly the floor of 5, distance 60 earns 0, and
the 20-point capacity sits in the denominator in all three cases. -/
theorem locationPoints_at_fifty_maxTravel (p : UserProfile) (t : Trial)
    (hmax : p.maxTravelDistance = 50) :
    locationPoints p { t with distance := some 0 } = 20 ∧
    locationPoints p { t with distance := some 50 } = 5 ∧
    locationPoints p { t with distance := some 60 } = 0 ∧
    scoreDenominator p { t with distance := some 0 } =
      scoreDenominator p { t with distance := some 50 } ∧
    scoreDenominator p { t with distance := some 50 } =
      scoreDenominator p { t with distance := some 60 } ∧
    (100 : ℚ) ≤ scoreDenominator p { t with distance := some 60 } := by
  refine ⟨?_, ?_, ?_, rfl, rfl, ?_⟩
  · show (if (0:ℚ) ≤ p.maxTravelDistance then
        max 5 (20 * (1 - 0 / p.maxTravelDistance)) else 0) = 20
    rw [hmax]
    rw [if_pos (by norm_num)]
    norm_num
  · show (if (50:ℚ) ≤ p.maxTravelDistance then
        max 5 (20 * (1 - 50 / p.maxTravelDistance)) else 0) = 5
    rw [hmax]
    rw [if_pos (by norm_num)]
    norm_num
  · show (if (60:ℚ) ≤ p.maxTravelDistance then
        max 5 (20 * (1 - 60 / p.maxTravelDistance)) else 0) = 0
    rw [hmax]
    rw [if_neg (by norm_num)]
  · show (100 : ℚ) ≤ 50 + 15 + 15 + 20 + (if compApplicable p then 10 else 0)
    split <;> norm_num

/-- Witness for C5: the three proximity point values and the shared
denominator at the concrete profile `cp4` and trial `ct4`. -/
theorem locationPoints_at_fifty_maxTravel_witness :
    locationPoints cp4 { ct4 with distance := some 0 } = 20 ∧
    locationPoints cp4 { ct4 with distance := some 50 } = 5 ∧
    locationPoints cp4 { ct4 with distance := some 60 } = 0 ∧
    scoreDenominator cp4 { ct4 with distance := some 0 } =
      scoreDenominator cp4 { ct4 with distance := some 50 } ∧
    scoreDenominator cp4 { ct4 with distance := some 50 } =
      scoreDenominator cp4 { ct4 with distance := some 60 } ∧
    (100 : ℚ) ≤ scoreDenominator cp4 { ct4 with distance := some 60 } :=
  locationPoints_at_fifty_maxTravel cp4 ct4 (by decide)

/-- Full-match evaluation shared by the C4 theorem and its counterexample:
condition, gender and age matched, no distance, no compensation preference
gives 80 earned points over the 100-point denominator. -/
theorem score_full_match_aux (p : UserProfile) (t : Trial)
    (hc : conditionMatch p t = true) (hg : genderMatch p t = true)
    (ha : ageMatch p t = true) (hd : t.distance = none)
    (hp : p.preferredCompensation = none) :
    calculateMatchScore p t = 4 / 5 := by
  have hden : scoreDenominator p t = 100 := by
    simp [scoreDenominator, compApplicable, hp]
    norm_num
  have hnum : scoreNumerator p t = 80 := by
    simp [scoreNumerator, conditionPoints, genderPoints, agePoints,
      locationPoints, compensationPoints, hc, hg, ha, hd, hp]
    norm_num
  rw [calculateMatchScore, if_pos (by rw [hden]; norm_num), hnum, hden]
  norm_num

/-- C4 (amended): a trial matching condition, gender and age, with no
distance and no compensation information, scored against a profile with no
preferred compensation, receives exactly 80/100 = 0.8 (the distance weight
of 20 stays in the denominator but is unearned). -/
theorem full_match_score_eq_fourFifths (p : UserProfile) (t : Trial)
    (hc : conditionMatch p t = true) (hg : genderMatch p t = true)
    (ha : ageMatch p t = true) (hd : t.distance = none)
    (hp : p.preferredCompensation = none) :
    calculateMatchScore p t = 4 / 5 :=
  score_full_match_aux p t hc hg ha hd hp

/-- Witness for C4: the concrete full-match pair `cp4`, `ct4` scores 0.8. -/
theorem full_match_score_eq_fourFifths_witness :
    calculateMatchScore cp4 ct4 = 4 / 5 :=
  full_match_score_eq_fourFifths cp4 ct4 (by decide) (by decide) (by decide)
    (by decide) (by decide)

/-- Counterexample to C4 as stated: the concrete full-match pair scores
4/5 = 0.8, not 50/80 = 0.625. -/
theorem full_match_score_ne_fiveEighths :
    calculateMatchScore cp4 ct4 ≠ 5 / 8 := by
  rw [score_full_match_aux cp4 ct4 (by decide) (by decide) (by decide)
    (by decide) (by decide)]
  norm_num

/-- C3: unparsable age-range strings never propagate a failure: the minimum
defaults to 0, the maximum to 999, and the trial is scored exactly as if its
age range were the widest range 0 to 999. -/
theorem score_malformed_age_defaults (p : UserProfile) (t : Trial)
    (hmin : parseIntJS t.age_range.min = none)
    (hmax : parseIntJS t.age_range.max = none) :
    minAgeOf t = 0 ∧ maxAgeOf t = 999 ∧
    calculateMatchScore p t =
      calculateMatchScore p { t with age_range := { min := "0", max := "999" } } := by
  have e1 : minAgeOf t = 0 := by simp [minAgeOf, hmin, jsOrInt]
  have e2 : maxAgeOf t = 999 := by simp [maxAgeOf, hmax, jsOrInt]
  have e1b : minAgeOf { t with age_range := { min := "0", max := "999" } } = 0 := rfl
  have e2b : maxAgeOf { t with age_range := { min := "0", max := "999" } } = 999 := rfl
  have hAge : ageMatch p { t with age_range := { min := "0", max := "999" } } =
      ageMatch p t := by
    unfold ageMatch
    rw [e1, e2, e1b, e2b]
  refine ⟨e1, e2, ?_⟩
  unfold calculateMatchScore scoreNumerator scoreDenominator agePoints
  rw [hAge]
  exact rfl

/-- Witness for C3: the trial `ctBadAge` with age-range strings abc and the
empty string gets the default range and the unchanged score. -/
theorem score_malformed_age_defaults_witness :
    minAgeOf ctBadAge = 0 ∧ maxAgeOf ctBadAge = 999 ∧
    calculateMatchScore cp4 ctBadAge =
      calculateMatchScore cp4 { ctBadAge with age_range := { min := "0", max := "999" } } :=
  score_malformed_age_defaults cp4 ctBadAge (by decide) (by decide)

/-- C2 (amended): when the search call fails while the component is mounted,
the orchestrator transitions to the error state with the fetch-failed
message, clears the trials list to empty (it does NOT preserve the previous
ranked results), and releases the in-flight and loading flags. -/
theorem loadTrialsResolve_failure_error_and_clear (st : OrchState) (p : UserProfile)
    (hm : st.isMounted = true) :
    (loadTrialsResolve st p (Except.error ())).error =
      some "Failed to load clinical trials. Please try again later." ∧
    (loadTrialsResolve st p (Except.error ())).trials = [] ∧
    (loadTrialsResolve st p (Except.error ())).isFetching = false ∧
    (loadTrialsResolve st p (Except.error ())).loading = false := by
  simp [loadTrialsResolve, hm]

/-- Witness for C2: the failure transition at the concrete in-flight state. -/
theorem loadTrialsResolve_failure_error_and_clear_witness :
    (loadTrialsResolve stInFlight cp4 (Except.error ())).error =
      some "Failed to load clinical trials. Please try again later." ∧
    (loadTrialsResolve stInFlight cp4 (Except.error ())).trials = [] ∧
    (loadTrialsResolve stInFlight cp4 (Except.error ())).isFetching = false ∧
    (loadTrialsResolve stInFlight cp4 (Except.error ())).loading = false :=
  loadTrialsResolve_failure_error_and_clear stInFlight cp4 (by decide)

/-- Counterexample to C2 as stated: at a concrete mounted state holding one
ranked trial, a failed fetch does not leave the trials list unaltered. -/
theorem loadTrialsResolve_failure_not_preserve :
    (loadTrialsResolve stInFlight cp4 (Except.error ())).trials ≠
      stInFlight.trials := by decide

/-- C9: a search trigger is skipped while a fetch is in flight or while the
profile fingerprint equals the last searched one, and two triggers with an
unchanged fingerprint while the first is still in flight issue exactly one
network call. -/
theorem loadTrialsBegin_single_call (st : OrchState) (p : UserProfile)
    (hf : st.isFetching = false) (hm : st.isMounted = true)
    (hfp : st.searchedProfile ≠ some (fingerprintOf p))
    (hcond : p.medicalConditions ≠ []) (hloc : p.location ≠ "") :
    issuesCall (loadTrialsBegin st p) = true ∧
    issuesCall (loadTrialsBegin (stateAfter (loadTrialsBegin st p)) p) = false ∧
    issuesCall (loadTrialsBegin
      { st with searchedProfile := some (fingerprintOf p) } p) = false ∧
    issuesCall (loadTrialsBegin { st with isFetching := true } p) = false := by
  have hfp2 : ¬ (some (fingerprintOf p) = st.searchedProfile) := fun h => hfp h.symm
  have hbegin : loadTrialsBegin st p =
      .request { st with isFetching := true, loading := true, error := none }
        (p.medicalConditions.headD "") (cityOf p.location) := by
    simp [loadTrialsBegin, hf, hm, hfp2, hcond, hloc]
  refine ⟨by rw [hbegin]; rfl, ?_, ?_, ?_⟩
  · rw [hbegin]
    simp [stateAfter, loadTrialsBegin, issuesCall]
  · simp [loadTrialsBegin, hf, hm, issuesCall]
  · simp [loadTrialsBegin, issuesCall]

/-- Witness for C9: the double-trigger scenario at the concrete idle state
and profile `cp4` issues exactly one call, and both skip guards hold. -/
theorem loadTrialsBegin_single_call_witness :
    issuesCall (loadTrialsBegin stIdle cp4) = true ∧
    issuesCall (loadTrialsBegin (stateAfter (loadTrialsBegin stIdle cp4)) cp4) = false ∧
    issuesCall (loadTrialsBegin
      { stIdle with searchedProfile := some (fingerprintOf cp4) } cp4) = false ∧
    issuesCall (loadTrialsBegin { stIdle with isFetching := true } cp4) = false :=
  loadTrialsBegin_single_call stIdle cp4 (by decide) (by decide) (by decide)
    (by decide) (by decide)

/-- Inserting into a list permutes consing onto it. -/
theorem insertByScore_perm (x : Trial) (l : List Trial) :
    (insertByScore x l).Perm (x :: l) := by
  induction l with
  | nil => exact List.Perm.refl _
  | cons y ys ih =>
    unfold insertByScore
    split
    · exact List.Perm.refl _
    · exact (ih.cons y).trans (List.Perm.swap x y ys)

/-- Insertion preserves the descending-by-key pairwise order. -/
theorem insertByScore_pairwise (x : Trial) (l : List Trial)
    (h : l.Pairwise (fun a b => keyOf b ≤ keyOf a)) :
    (insertByScore x l).Pairwise (fun a b => keyOf b ≤ keyOf a) := by
  induction l with
  | nil => simp [insertByScore]
  | cons y ys ih =>
    rw [List.pairwise_cons] at h
    unfold insertByScore
    split
    case isTrue hc =>
      refine List.Pairwise.cons ?_ (List.Pairwise.cons h.1 h.2)
      intro z hz
      rcases List.mem_cons.mp hz with rfl | hz2
      · exact hc
      · exact le_trans (h.1 z hz2) hc
    case isFalse hc =>
      refine List.Pairwise.cons ?_ (ih h.2)
      intro z hz
      rcases List.mem_cons.mp ((insertByScore_perm x ys).mem_iff.mp hz) with rfl | hz2
      · exact le_of_not_le hc
      · exact h.1 z hz2

/-- The sort is a permutation of its input. -/
theorem sortByScoreDesc_perm (l : List Trial) : (sortByScoreDesc l).Perm l := by
  induction l with
  | nil => exact List.Perm.refl _
  | cons x xs ih =>
    exact (insertByScore_perm x (sortByScoreDesc xs)).trans (ih.cons x)

/-- The sort output is pairwise descending by key. -/
theorem sortByScoreDesc_pairwise (l : List Trial) :
    (sortByScoreDesc l).Pairwise (fun a b => keyOf b ≤ keyOf a) := by
  induction l with
  | nil => simp [sortByScoreDesc]
  | cons x xs ih => exact insertByScore_pairwise x _ ih

/-- Stability of one insertion: restricted to any fixed key, insertion only
prepends the new element when it carries that key, since every element it
jumps over has a strictly larger key. -/
theorem insertByScore_filter (x : Trial) (l : List Trial) (k : ℚ) :
    (insertByScore x l).filter (fun t => decide (keyOf t = k)) =
      if keyOf x = k then x :: l.filter (fun t => decide (keyOf t = k))
      else l.filter (fun t => decide (keyOf t = k)) := by
  induction l with
  | nil =>
    by_cases hx : keyOf x = k <;> simp [insertByScore, hx]
  | cons y ys ih =>
    unfold insertByScore
    split
    case isTrue hc =>
      by_cases hx : keyOf x = k <;> simp [List.filter_cons, hx]
    case isFalse hc =>
      by_cases hy : keyOf y = k
      · have hx : ¬ keyOf x = k := fun h => hc (le_of_eq (hy.trans h.symm))
        simp [List.filter_cons, hy, hx, ih]
      · by_cases hx : keyOf x = k <;> simp [List.filter_cons, hy, hx, ih]

/-- Stability of the sort: the subsequence at any fixed key is unchanged. -/
theorem sortByScoreDesc_filter (l : List Trial) (k : ℚ) :
    (sortByScoreDesc l).filter (fun t => decide (keyOf t = k)) =
      l.filter (fun t => decide (keyOf t = k)) := by
  induction l with
  | nil => rfl
  | cons x xs ih =>
    unfold sortByScoreDesc
    rw [insertByScore_filter, List.filter_cons]
    by_cases hx : keyOf x = k <;> simp [hx, ih]

/-- C8: the ranking returns a permutation of the filtered, scored trials,
sorted descending by match score, and stably so: for every key value, the
trials carrying that score keep their relative input order. -/
theorem rankTrialsByMatchScore_sorted_stable (trials : List Trial) (p : UserProfile) :
    (rankTrialsByMatchScore trials p).Perm (scoredTrials trials p) ∧
    (rankTrialsByMatchScore trials p).Pairwise (fun a b => keyOf b ≤ keyOf a) ∧
    ∀ k : ℚ, (rankTrialsByMatchScore trials p).filter (fun t => decide (keyOf t = k)) =
      (scoredTrials trials p).filter (fun t => decide (keyOf t = k)) :=
  ⟨sortByScoreDesc_perm _, sortByScoreDesc_pairwise _,
    fun k => sortByScoreDesc_filter _ k⟩

/-- The condition component earns between 0 and its 50-point weight. -/
theorem conditionPoints_bounds (p : UserProfile) (t : Trial) :
    0 ≤ conditionPoints p t ∧ conditionPoints p t ≤ 50 := by
  unfold conditionPoints
  split <;> norm_num

/-- The gender component earns between 0 and its 15-point weight. -/
theorem genderPoints_bounds (p : UserProfile) (t : Trial) :
    0 ≤ genderPoints p t ∧ genderPoints p t ≤ 15 := by
  unfold genderPoints
  split <;> norm_num

/-- The age component earns between 0 and its 15-point weight. -/
theorem agePoints_bounds (p : UserProfile) (t : Trial) :
    0 ≤ agePoints p t ∧ agePoints p t ≤ 15 := by
  unfold agePoints
  split <;> norm_num

/-- With a nonnegative distance and a positive travel range, the proximity
component earns between 0 and its 20-point weight. -/
theorem locationPoints_bounds (p : UserProfile) (t : Trial)
    (hd : 0 ≤ t.distance.getD 0) (hmax : 0 < p.maxTravelDistance) :
    0 ≤ locationPoints p t ∧ locationPoints p t ≤ 20 := by
  cases hdist : t.distance with
  | none =>
    have he : locationPoints p t = 0 := by unfold locationPoints; rw [hdist]
    rw [he]
    norm_num
  | some d =>
    have hd0 : 0 ≤ d := by rw [hdist] at hd; simpa using hd
    have he : locationPoints p t =
        (if d ≤ p.maxTravelDistance then
          max 5 (20 * (1 - d / p.maxTravelDistance)) else 0) := by
      unfold locationPoints
      rw [hdist]
    rw [he]
    split
    next h =>
      constructor
      · exact le_trans (by norm_num) (le_max_left 5 _)
      · refine max_le (by norm_num) ?_
        have hdiv : 0 ≤ d / p.maxTravelDistance := div_nonneg hd0 hmax.le
        linarith
    next h => norm_num

/-- With a positive preferred minimum and a nonnegative trial amount, the
raw compensation formula earns between 0 and 10 points. -/
theorem compPoints_bounds (pref : ℚ) (t : Trial) (hpref : 0 < pref)
    (hamt : 0 ≤ compAmount t) :
    0 ≤ compPoints pref t ∧ compPoints pref t ≤ 10 := by
  cases hcomp : t.compensation with
  | none =>
    have he : compPoints pref t = 0 := by unfold compPoints; rw [hcomp]
    rw [he]
    norm_num
  | some c =>
    cases hhas : c.has_compensation with
    | false =>
      have he : compPoints pref t = 0 := by
        simp [compPoints, hcomp, hhas]
      rw [he]
      norm_num
    | true =>
      cases hamt2 : c.amount with
      | none =>
        have he : compPoints pref t = 0 := by
          simp [compPoints, hcomp, hhas, hamt2]
        rw [he]
        norm_num
      | some amount =>
        have ha0 : 0 ≤ amount := by
          have hval : compAmount t = amount := by
            simp [compAmount, hcomp, hamt2]
          rw [hval] at hamt
          exact hamt
        have he : compPoints pref t =
            (if amount = 0 then 0
             else if pref ≤ amount then 10
             else min 9 (10 * (amount / pref))) := by
          simp only [compPoints, hcomp, hhas, hamt2, if_true]
        rw [he]
        split
        next => norm_num
        next hne =>
          split
          next => norm_num
          next hlt =>
            constructor
            · exact le_min (by norm_num)
                (mul_nonneg (by norm_num) (div_nonneg ha0 hpref.le))
            · exact le_trans (min_le_left _ _) (by norm_num)

/-- With a nonnegative trial amount, the compensation component earns
between 0 and its 10-point weight. -/
theorem compensationPoints_bounds (p : UserProfile) (t : Trial)
    (hamt : 0 ≤ compAmount t) :
    0 ≤ compensationPoints p t ∧ compensationPoints p t ≤ 10 := by
  cases hpc : p.preferredCompensation with
  | none =>
    have he : compensationPoints p t = 0 := by unfold compensationPoints; rw [hpc]
    rw [he]
    norm_num
  | some pref =>
    have he : compensationPoints p t = (if 0 < pref then compPoints pref t else 0) := by
      unfold compensationPoints
      rw [hpc]
    rw [he]
    split
    next hpref => exact compPoints_bounds pref t hpref hamt
    next => norm_num

/-- When the compensation weight is inapplicable the component earns 0. -/
theorem compensationPoints_zero_of_not_applicable (p : UserProfile) (t : Trial)
    (h : compApplicable p = false) : compensationPoints p t = 0 := by
  unfold compApplicable at h
  cases hpc : p.preferredCompensation with
  | none => unfold compensationPoints; rw [hpc]
  | some pref =>
    rw [hpc] at h
    simp only [decide_eq_false_iff_not] at h
    have he : compensationPoints p t = (if 0 < pref then compPoints pref t else 0) := by
      unfold compensationPoints
      rw [hpc]
    rw [he, if_neg h]

/-- C1 (amended): for every profile with a positive maximum travel distance
and every trial whose distance and compensation amount, where present, are
nonnegative, the match score lies in the closed interval from 0 to 1. -/
theorem calculateMatchScore_mem_unit_interval (p : UserProfile) (t : Trial)
    (hd : 0 ≤ t.distance.getD 0) (hmax : 0 < p.maxTravelDistance)
    (hamt : 0 ≤ compAmount t) :
    0 ≤ calculateMatchScore p t ∧ calculateMatchScore p t ≤ 1 := by
  obtain ⟨h1, h2⟩ := conditionPoints_bounds p t
  obtain ⟨h3, h4⟩ := genderPoints_bounds p t
  obtain ⟨h5, h6⟩ := agePoints_bounds p t
  obtain ⟨h7, h8⟩ := locationPoints_bounds p t hd hmax
  obtain ⟨h9, h10⟩ := compensationPoints_bounds p t hamt
  have hnum0 : 0 ≤ scoreNumerator p t := by
    unfold scoreNumerator
    linarith
  have hden : 0 < scoreDenominator p t := by
    unfold scoreDenominator
    split <;> norm_num
  have hle : scoreNumerator p t ≤ scoreDenominator p t := by
    unfold scoreNumerator scoreDenominator
    cases hca : compApplicable p
    · have hz := compensationPoints_zero_of_not_applicable p t hca
      rw [hz]
      simp only [hca, Bool.false_eq_true, if_false]
      linarith
    · simp only [hca, if_true]
      linarith
  unfold calculateMatchScore
  rw [if_pos hden]
  exact ⟨div_nonneg hnum0 hden.le, (div_le_one hden).mpr hle⟩

/-- Witness for C1: the concrete pair `cp4`, `ct4` scores inside the unit
interval. -/
theorem calculateMatchScore_mem_unit_interval_witness :
    0 ≤ calculateMatchScore cp4 ct4 ∧ calculateMatchScore cp4 ct4 ≤ 1 :=
  calculateMatchScore_mem_unit_interval cp4 ct4 (by decide) (by decide) (by decide)

/-- Counterexample to C1 as stated: at a negative trial distance of minus 50
miles against a 50-mile travel range, the proximity formula awards 40 of its
20 points and the final score is 120/100, strictly above 1. -/
theorem calculateMatchScore_gt_one_neg_distance :
    1 < calculateMatchScore cp4 ctNegDist := by
  have hc : conditionMatch cp4 ctNegDist = true := by decide
  have hg : genderMatch cp4 ctNegDist = true := by decide
  have ha : ageMatch cp4 ctNegDist = true := by decide
  have hloc : locationPoints cp4 ctNegDist = 40 := by
    show (if (-50:ℚ) ≤ 50 then max 5 (20 * (1 - (-50) / 50)) else 0) = 40
    rw [if_pos (by norm_num)]
    norm_num
  have hca : compApplicable cp4 = false := by decide
  have hcp : compensationPoints cp4 ctNegDist = 0 := rfl
  have hden : scoreDenominator cp4 ctNegDist = 100 := by
    simp only [scoreDenominator, hca, Bool.false_eq_true, if_false]
    norm_num
  have hnum : scoreNumerator cp4 ctNegDist = 120 := by
    unfold scoreNumerator
    rw [hloc, hcp]
    simp only [conditionPoints, genderPoints, agePoints, hc, hg, ha, if_true]
    norm_num
  unfold calculateMatchScore
  rw [if_pos (by rw [hden]; norm_num), hnum, hden]
  norm_num
